import Mathlib

/-!
Shallow embedding of the environment core of `kern/env.c` (JOS-style teaching
kernel): the environment table, the (generation, slot) identifier scheme,
`envid2env` lookup, `env_alloc` / `env_free` / `env_destroy` / `env_run`, the
ELF validator/loader `load_icode` and the symbol binder `bind_functions`.

Machine integers are modelled as `Nat` / `Int` with explicit 32-bit wrapping
where the C uses `int32_t` arithmetic.  Memory is a byte function `Nat → Nat`;
the input binary is a byte list.  The external collaborators (`sched_yield`,
`env_pop_tf`, `find_function`) are modelled as result constructors or as a
resolver function parameter.
-/

namespace KernEnv

/-- Number of slots in the environment table, `NENV` (= `1 << 10`).
Modelled from the spec: `inc/env.h` is not part of the sources; the spec fixes
the capacity as a power of two whose low bits form the slot-index mask. -/
def NENV : Nat := 1024

/-- Generation stride shift, `#define ENVGENSHIFT 12` in `kern/env.c`. -/
def ENVGENSHIFT : Nat := 12

/-- Kernel text segment selector `GD_KT` (0x8, from the GDT comments in
`kern/env.c`). -/
def GD_KT : Nat := 0x8

/-- Kernel data segment selector `GD_KD` (0x10, from the GDT comments in
`kern/env.c`). -/
def GD_KD : Nat := 0x10

/-- Interrupt-enable flag bit of RFLAGS.
Modelled from the spec: `inc/mmu.h` is not part of the sources; the spec says
the initial flags value has interrupts enabled (x86 `FL_IF` = 0x200). -/
def FL_IF : Nat := 0x200

/-- I/O privilege level 0 value of the RFLAGS IOPL field.
Modelled from the spec: `inc/mmu.h` is not part of the sources; IOPL 0 is the
all-zero value of the two IOPL bits. -/
def FL_IOPL_0 : Nat := 0

/-- Per-environment stack size ("2 pages" per the comment in `env_alloc`).
Modelled from the spec: `inc/memlayout.h` is not part of the sources. -/
def USTACKSIZE : Nat := 2 * 4096

/-- Upper user-address bound `UTOP` past which no environment may be loaded.
Modelled from the spec: `inc/memlayout.h` is not part of the sources; the
spec only requires a fixed upper address bound. -/
def UTOP : Nat := 0x8000000000

/-- Environment lifecycle status, `enum` from `inc/env.h` (named in
`kern/env.c`: `ENV_FREE`, `ENV_DYING`, `ENV_RUNNABLE`, `ENV_RUNNING`,
`ENV_NOT_RUNNABLE`). -/
inductive EnvStatus where
  | ENV_FREE
  | ENV_DYING
  | ENV_RUNNABLE
  | ENV_RUNNING
  | ENV_NOT_RUNNABLE
deriving DecidableEq, Repr

/-- Environment type tag.
Modelled from the spec: a kernel-space vs. user-space variant tag; its values
are opaque to the operations verified here. -/
inductive EnvType where
  | ENV_TYPE_KERNEL
  | ENV_TYPE_USER
deriving DecidableEq, Repr

/-- Error codes returned by the environment core (`inc/error.h` is not part of
the sources; the distinct codes used by `kern/env.c` are `-E_BAD_ENV`,
`-E_NO_FREE_ENV` and `-E_INVALID_EXE`). -/
inductive KErr where
  | E_BAD_ENV
  | E_NO_FREE_ENV
  | E_INVALID_EXE
deriving DecidableEq, Repr

/-- Saved register/flags/segment snapshot (`struct Trapframe`): the fifteen
general-purpose registers of `PushRegs` plus segment, trap, stack and flag
words. -/
structure Trapframe where
  reg_rax : Nat := 0
  reg_rbx : Nat := 0
  reg_rcx : Nat := 0
  reg_rdx : Nat := 0
  reg_rsi : Nat := 0
  reg_rdi : Nat := 0
  reg_rbp : Nat := 0
  reg_r8 : Nat := 0
  reg_r9 : Nat := 0
  reg_r10 : Nat := 0
  reg_r11 : Nat := 0
  reg_r12 : Nat := 0
  reg_r13 : Nat := 0
  reg_r14 : Nat := 0
  reg_r15 : Nat := 0
  tf_es : Nat := 0
  tf_ds : Nat := 0
  tf_trapno : Nat := 0
  tf_errcode : Nat := 0
  tf_rip : Nat := 0
  tf_cs : Nat := 0
  tf_rflags : Nat := 0
  tf_rsp : Nat := 0
  tf_ss : Nat := 0
deriving DecidableEq, Repr

/-- The all-zero trap frame (result of `memset(&env->env_tf, 0, ...)`). -/
def zeroTrapframe : Trapframe := {}

/-- One slot of the environment table (`struct Env`).  The free-list link
`env_link` is represented by the position of the slot index in the kernel
state's free list. -/
structure Env where
  env_id : Int := 0
  env_parent_id : Int := 0
  env_type : EnvType := .ENV_TYPE_KERNEL
  env_status : EnvStatus := .ENV_FREE
  env_runs : Nat := 0
  env_tf : Trapframe := {}
deriving DecidableEq, Repr

/-- Kernel state touched by the environment core: the table `envs` (indices
`< NENV` are meaningful), the free list of slot indices (threaded by
`env_link` in the C), the current environment pointer `curenv` (a slot index
or null) and the static stack-top watermark of `env_alloc`. -/
structure KState where
  envs : Nat → Env
  env_free_list : List Nat
  curenv : Option Nat
  stack_top : Nat

/-- Point update of the environment table. -/
def updEnv (f : Nat → Env) (i : Nat) (e : Env) : Nat → Env :=
  fun j => if j = i then e else f j

/-- `env->env_status = s` for slot `idx`. -/
def setStatus (st : KState) (idx : Nat) (s : EnvStatus) : KState :=
  { st with envs := updEnv st.envs idx { st.envs idx with env_status := s } }

/-- The unsigned 32-bit pattern of a C `int32_t` value. -/
def bits32 (i : Int) : Nat := (i % (2 ^ 32 : Int)).toNat

/-- Reinterpret an unsigned 32-bit pattern as a signed `int32_t` value. -/
def ofUInt32 (n : Nat) : Int := if n < 2 ^ 31 then (n : Int) else (n : Int) - 2 ^ 32

/-- `ENVX(envid)`: the slot index, `envid & (NENV - 1)` on the 32-bit
pattern. -/
def ENVX (envid : Int) : Nat := bits32 envid &&& (NENV - 1)

/-- `envid2env` from `kern/env.c`.  Result:
* `none` — the C dereferences a null `curenv` (no defined result);
* `some (.error e)` — returns `-E_BAD_ENV` with `*env_store = NULL`;
* `some (.ok s)` — returns 0 with `*env_store = s` (`s = none` is a null
  stored pointer, `s = some i` is `&envs[i]`). -/
def envid2env (st : KState) (envid : Int) (need_check_perm : Bool) :
    Option (Except KErr (Option Nat)) :=
  /- If envid is zero, return the current environment. -/
  if envid = 0 then
    some (.ok st.curenv)
  else
    /- Look up the Env structure via the index part of the envid, then check
       the env_id field to ensure the envid is not stale. -/
    let idx := ENVX envid
    let env := st.envs idx
    if env.env_status = .ENV_FREE ∨ env.env_id ≠ envid then
      some (.error .E_BAD_ENV)
    else if need_check_perm ∧ st.curenv ≠ some idx then
      match st.curenv with
      | none => none
      | some c =>
          if env.env_parent_id ≠ (st.envs c).env_id then
            some (.error .E_BAD_ENV)
          else
            some (.ok (some idx))
    else
      some (.ok (some idx))

/-- The generation computation of `env_alloc`:
`int32_t generation = (env->env_id + (1 << ENVGENSHIFT)) & ~(NENV - 1);`
followed by `if (generation <= 0) generation = 1 << ENVGENSHIFT;`.
The `&` acts on the 32-bit pattern; `~(NENV - 1)` is `2^32 - NENV`. -/
def nextGeneration (prevId : Int) : Int :=
  let g := ofUInt32 (bits32 (prevId + (1 <<< ENVGENSHIFT : Nat)) &&& (2 ^ 32 - NENV))
  if g ≤ 0 then ((1 <<< ENVGENSHIFT : Nat) : Int) else g

/-- `env->env_id = generation | (env - envs)`: bitwise or of the generation's
32-bit pattern with the slot index. -/
def newEnvId (prevId : Int) (idx : Nat) : Int :=
  ofUInt32 (bits32 (nextGeneration prevId) ||| idx)

/-- The trap frame built by `env_alloc`: zeroed by `memset`, then the kernel
segment selectors, the current stack-top watermark and `FL_IF | FL_IOPL_0`
are filled in. -/
def allocTrapframe (st : KState) : Trapframe :=
  { zeroTrapframe with
      tf_ds := GD_KD
      tf_es := GD_KD
      tf_ss := GD_KD
      tf_cs := GD_KT
      tf_rsp := st.stack_top
      tf_rflags := FL_IF ||| FL_IOPL_0 }

/-- The slot contents written by a successful `env_alloc` for slot `idx`. -/
def allocEnv (st : KState) (idx : Nat) (parent_id : Int) (type : EnvType) : Env :=
  { env_id := newEnvId (st.envs idx).env_id idx
    env_parent_id := parent_id
    env_type := type
    env_status := .ENV_RUNNABLE
    env_runs := 0
    env_tf := allocTrapframe st }

/-- `env_alloc` from `kern/env.c`.  Returns the allocated slot index (the C
stores `&envs[idx]` into `*newenv_store`) together with the updated state; on
failure (`-E_NO_FREE_ENV`) the state is the untouched input state, exactly as
in the C where the error path precedes every mutation. -/
def env_alloc (st : KState) (parent_id : Int) (type : EnvType) :
    Except KErr Nat × KState :=
  match st.env_free_list with
  | [] => (.error .E_NO_FREE_ENV, st)
  | idx :: rest =>
      (.ok idx,
        { st with
            envs := updEnv st.envs idx (allocEnv st idx parent_id type)
            env_free_list := rest
            stack_top := st.stack_top - USTACKSIZE })

/-- `env_free` from `kern/env.c`: set status `ENV_FREE` and push the slot on
the free list head.  Nothing else in the slot is changed. -/
def env_free (st : KState) (idx : Nat) : KState :=
  { setStatus st idx .ENV_FREE with env_free_list := idx :: st.env_free_list }

/-- Outcome of `env_destroy`: either the call returns to its caller, or the
target was the current environment and control was yielded to the external
scheduler (the call does not return). -/
inductive DestroyResult where
  | returned (st : KState)
  | yielded (st : KState)

/-- `env_destroy` from `kern/env.c`: set the target's status to `ENV_DYING`;
if the target is the current environment, free it and call `sched_yield`
(which does not return). -/
def env_destroy (st : KState) (idx : Nat) : DestroyResult :=
  let st1 := setStatus st idx .ENV_DYING
  if st1.curenv = some idx then
    .yielded (env_free st1 idx)
  else
    .returned st1

/-- Outcome of `env_run`: either control passed back to the external scheduler
(`sched_yield`), or the target environment was dispatched by restoring the
given trap frame (`env_pop_tf`, which does not return). -/
inductive RunResult where
  | toScheduler (st : KState)
  | dispatched (st : KState) (tf : Trapframe)

/-- The committing tail of `env_run`: record the target as current, set its
status to `ENV_RUNNING`, increment `env_runs` and restore its trap frame via
`env_pop_tf` (which does not return). -/
def envRunCommit (st : KState) (idx : Nat) : RunResult :=
  let target := st.envs idx
  let st' :=
    { st with
        curenv := some idx
        envs :=
          updEnv st.envs idx
            { target with
                env_status := .ENV_RUNNING
                env_runs := target.env_runs + 1 } }
  .dispatched st' ((st'.envs idx).env_tf)

/-- `env_run` from `kern/env.c`: free a `DYING` current environment (yielding
to the scheduler when it is also the target), downgrade a `RUNNING` current
environment to `RUNNABLE`, then commit the target as current, mark it
`RUNNING`, bump its run counter and restore its trap frame. -/
def env_run (st : KState) (idx : Nat) : RunResult :=
  match st.curenv with
  | none => envRunCommit st idx
  | some c =>
      if (st.envs c).env_status = .ENV_DYING then
        let st' := env_free st c
        if c = idx then .toScheduler st' else envRunCommit st' idx
      else if (st.envs c).env_status = .ENV_RUNNING then
        envRunCommit (setStatus st c .ENV_RUNNABLE) idx
      else
        envRunCommit st idx

end KernEnv

namespace KernEnv

/-- Observations of the committing tail of `env_run`: the target is recorded
as current, marked `ENV_RUNNING`, its run counter is incremented relative to
the pre-state, and the restored trap frame is the target's (unchanged) saved
frame. -/
def RunCommitted (st st' : KState) (idx : Nat) (tf : Trapframe) : Prop :=
  st'.curenv = some idx ∧
  (st'.envs idx).env_status = .ENV_RUNNING ∧
  (st'.envs idx).env_runs = (st.envs idx).env_runs + 1 ∧
  tf = (st'.envs idx).env_tf ∧
  tf = (st.envs idx).env_tf

/-! ### ELF image model

`struct Elf`, `struct Secthdr`, `struct Proghdr` and `struct Elf64_Sym` are
standard 64-bit ELF structures (`inc/elf.h` is not part of the sources;
modelled from the spec: "standard 64-bit ELF executables, little-endian").
The binary is a byte list; multi-byte fields are read little-endian at the
standard offsets. -/

/-- `ELF_MAGIC` ("\x7FELF" read as a little-endian 32-bit word). -/
def ELF_MAGIC : Nat := 0x464C457F

/-- `ET_EXEC`. -/
def ET_EXEC : Nat := 2

/-- `ELF_PROG_LOAD` (`PT_LOAD`). -/
def ELF_PROG_LOAD : Nat := 1

/-- `ELF_SHT_SYMTAB`. -/
def ELF_SHT_SYMTAB : Nat := 2

/-- `ELF_SHT_STRTAB`. -/
def ELF_SHT_STRTAB : Nat := 3

/-- `STB_GLOBAL`. -/
def STB_GLOBAL : Nat := 1

/-- `STT_OBJECT`. -/
def STT_OBJECT : Nat := 1

/-- `STV_DEFAULT`. -/
def STV_DEFAULT : Nat := 0

/-- `sizeof(struct Elf)` (the ELF64 file header). -/
def sizeofElf : Nat := 64

/-- `sizeof(struct Secthdr)` (an ELF64 section header). -/
def sizeofSecthdr : Nat := 64

/-- `sizeof(struct Proghdr)` (an ELF64 program header). -/
def sizeofProghdr : Nat := 56

/-- `sizeof(struct Elf64_Sym)`. -/
def sizeofSym : Nat := 24

/-- Byte `i` of the binary (reads past the end yield 0; the C would read
whatever follows the buffer, but every theorem below constrains reads to lie
within the buffer before relying on them). -/
def byteAt (b : List Nat) (i : Nat) : Nat := (b.getD i 0) % 256

/-- Little-endian read of `n` bytes at offset `off`. -/
def readLE (b : List Nat) (off : Nat) : Nat → Nat
  | 0 => 0
  | n + 1 => byteAt b off + 256 * readLE b (off + 1) n

/-- `e_magic`. -/
def e_magic (b : List Nat) : Nat := readLE b 0 4

/-- `e_elf[0]`: ELF class (2 = 64-bit). -/
def e_class (b : List Nat) : Nat := byteAt b 4

/-- `e_elf[1]`: data encoding (1 = little-endian). -/
def e_data (b : List Nat) : Nat := byteAt b 5

/-- `e_elf[2]`: identification version (1). -/
def e_identVersion (b : List Nat) : Nat := byteAt b 6

/-- `e_type`. -/
def e_type (b : List Nat) : Nat := readLE b 16 2

/-- `e_machine`. -/
def e_machine (b : List Nat) : Nat := readLE b 18 2

/-- `e_entry`. -/
def e_entry (b : List Nat) : Nat := readLE b 24 8

/-- `e_phoff`. -/
def e_phoff (b : List Nat) : Nat := readLE b 32 8

/-- `e_shoff`. -/
def e_shoff (b : List Nat) : Nat := readLE b 40 8

/-- `e_ehsize`. -/
def e_ehsize (b : List Nat) : Nat := readLE b 52 2

/-- `e_phentsize`. -/
def e_phentsize (b : List Nat) : Nat := readLE b 54 2

/-- `e_phnum`. -/
def e_phnum (b : List Nat) : Nat := readLE b 56 2

/-- `e_shentsize`. -/
def e_shentsize (b : List Nat) : Nat := readLE b 58 2

/-- `e_shnum`. -/
def e_shnum (b : List Nat) : Nat := readLE b 60 2

/-- `e_shstrndx`. -/
def e_shstrndx (b : List Nat) : Nat := readLE b 62 2

/-- Byte offset of section header `i` (`(struct Secthdr *)(binary +
elf->e_shoff) + i`). -/
def shOff (b : List Nat) (i : Nat) : Nat := e_shoff b + sizeofSecthdr * i

/-- `sh_name` of section header `i`. -/
def sh_name (b : List Nat) (i : Nat) : Nat := readLE b (shOff b i) 4

/-- `sh_type` of section header `i`. -/
def sh_type (b : List Nat) (i : Nat) : Nat := readLE b (shOff b i + 4) 4

/-- `sh_offset` of section header `i`. -/
def sh_offset (b : List Nat) (i : Nat) : Nat := readLE b (shOff b i + 24) 8

/-- `sh_size` of section header `i`. -/
def sh_size (b : List Nat) (i : Nat) : Nat := readLE b (shOff b i + 32) 8

/-- `sh_entsize` of section header `i`. -/
def sh_entsize (b : List Nat) (i : Nat) : Nat := readLE b (shOff b i + 56) 8

/-- Byte offset of program header `i`. -/
def phOff (b : List Nat) (i : Nat) : Nat := e_phoff b + sizeofProghdr * i

/-- `p_type` of program header `i`. -/
def p_type (b : List Nat) (i : Nat) : Nat := readLE b (phOff b i) 4

/-- `p_offset` of program header `i`. -/
def p_offset (b : List Nat) (i : Nat) : Nat := readLE b (phOff b i + 8) 8

/-- `p_va` of program header `i`. -/
def p_va (b : List Nat) (i : Nat) : Nat := readLE b (phOff b i + 16) 8

/-- `p_filesz` of program header `i`. -/
def p_filesz (b : List Nat) (i : Nat) : Nat := readLE b (phOff b i + 32) 8

/-- `p_memsz` of program header `i`. -/
def p_memsz (b : List Nat) (i : Nat) : Nat := readLE b (phOff b i + 40) 8

/-- `st_name` of the symbol at byte offset `off`. -/
def st_name (b : List Nat) (off : Nat) : Nat := readLE b off 4

/-- `st_info` of the symbol at byte offset `off`. -/
def st_info (b : List Nat) (off : Nat) : Nat := byteAt b (off + 4)

/-- `st_other` of the symbol at byte offset `off`. -/
def st_other (b : List Nat) (off : Nat) : Nat := byteAt b (off + 5)

/-- `st_value` of the symbol at byte offset `off`. -/
def st_value (b : List Nat) (off : Nat) : Nat := readLE b (off + 8) 8

/-- `st_size` of the symbol at byte offset `off`. -/
def st_size (b : List Nat) (off : Nat) : Nat := readLE b (off + 16) 8

/-- `ELF64_ST_BIND(info)` = `info >> 4`. -/
def ELF64_ST_BIND (info : Nat) : Nat := info >>> 4

/-- `ELF64_ST_TYPE(info)` = `info & 0xf`. -/
def ELF64_ST_TYPE (info : Nat) : Nat := info &&& 0xf

/-- The NUL-terminated C string starting at byte offset `off` (stops at the
end of the buffer like the bounds-checked uses below). -/
def cstr (b : List Nat) (off : Nat) : List Nat :=
  ((b.drop off).takeWhile (fun c => c % 256 ≠ 0)).map (fun c => c % 256)

/-- The bytes of the literal `".strtab"`. -/
def dotStrtab : List Nat := [46, 115, 116, 114, 116, 97, 98]

/-! ### Byte-addressed target memory -/

/-- Target memory: a byte function. -/
def Mem : Type := Nat → Nat

/-- `memcpy(dst, binary + src, n)` from the binary into memory. -/
def memcpyBin (m : Mem) (dst : Nat) (b : List Nat) (src n : Nat) : Mem :=
  fun a => if dst ≤ a ∧ a < dst + n then byteAt b (src + (a - dst)) else m a

/-- `memset(dst, 0, n)`. -/
def memsetZero (m : Mem) (dst n : Nat) : Mem :=
  fun a => if dst ≤ a ∧ a < dst + n then 0 else m a

/-- `memcpy(dst, &addr, 8)`: store the eight little-endian bytes of `v`. -/
def write8 (m : Mem) (dst v : Nat) : Mem :=
  fun a => if dst ≤ a ∧ a < dst + 8 then v / 2 ^ (8 * (a - dst)) % 256 else m a

/-! ### The ELF loader -/

/-- The body of the program-header loop of `load_icode` for one `PT_LOAD`
entry `i`: clamp the file size to the memory size, check the source range
against the buffer and the destination range against `UTOP`, then copy and
zero-fill. -/
def loadSeg (b : List Nat) (size i : Nat) (mem : Mem) : Except KErr Mem :=
  let src := p_offset b i
  let dst := p_va b i
  let memsz := p_memsz b i
  let filesz := min (p_filesz b i) memsz
  if src + filesz > size then .error .E_INVALID_EXE
  else if dst + memsz > UTOP then .error .E_INVALID_EXE
  else .ok (memsetZero (memcpyBin mem dst b src filesz) (dst + filesz) (memsz - filesz))

/-- The program-header loop of `load_icode`: entries `i, i+1, ...` (`n`
remaining), threading the minimum/maximum loaded virtual address (updated
before the entry's checks, as in the C) and the memory (which keeps the
writes of the segments already processed even when a later entry fails). -/
def loadSegs (b : List Nat) (size : Nat) :
    Nat → Nat → Nat → Nat → Mem → Except KErr (Nat × Nat) × Mem
  | 0, _, mn, mx, mem => (.ok (mn, mx), mem)
  | n + 1, i, mn, mx, mem =>
      if p_type b i = ELF_PROG_LOAD then
        let mn' := min mn (p_va b i)
        let mx' := max mx (p_va b i + p_memsz b i)
        match loadSeg b size i mem with
        | .error e => (.error e, mem)
        | .ok mem' => loadSegs b size n (i + 1) mn' mx' mem'
      else
        loadSegs b size n (i + 1) mn mx mem

/-! ### The symbol binder -/

/-- One candidate symbol of `bind_functions` (the loop body over `syms[j]`,
at byte offset `off`): symbols that are not GLOBAL OBJECT DEFAULT
pointer-sized are ignored; otherwise the name offset is checked against the
string table, the value against the loaded image span, and a resolvable name
gets the resolved address written over the eight bytes at the symbol's
value. -/
def bindSym (resolver : List Nat → Nat) (b : List Nat)
    (strOff strSize imageStart imageEnd off : Nat) (mem : Mem) :
    Except KErr Unit × Mem :=
  if ELF64_ST_BIND (st_info b off) = STB_GLOBAL ∧
      ELF64_ST_TYPE (st_info b off) = STT_OBJECT ∧
      st_other b off = STV_DEFAULT ∧
      st_size b off = 8 then
    if st_name b off > strSize then (.error .E_INVALID_EXE, mem)
    else if st_value b off < imageStart ∨ st_value b off > imageEnd then
      (.error .E_INVALID_EXE, mem)
    else
      let addr := resolver (cstr b (strOff + st_name b off))
      if addr ≠ 0 then (.ok (), write8 mem (st_value b off) addr)
      else (.ok (), mem)
  else
    (.ok (), mem)

/-- The symbol loop of `bind_functions` over one SYMTAB section: `n` symbols
remaining, the next at byte offset `off`. -/
def bindSyms (resolver : List Nat → Nat) (b : List Nat)
    (strOff strSize imageStart imageEnd : Nat) :
    Nat → Nat → Mem → Except KErr Unit × Mem
  | 0, _, mem => (.ok (), mem)
  | n + 1, off, mem =>
      match bindSym resolver b strOff strSize imageStart imageEnd off mem with
      | (.error e, mem') => (.error e, mem')
      | (.ok _, mem') =>
          bindSyms resolver b strOff strSize imageStart imageEnd n
            (off + sizeofSym) mem'

/-- The section loop of `bind_functions`: for each SYMTAB section check its
bounds and entry size, then bind its symbols. -/
def bindSections (resolver : List Nat → Nat) (b : List Nat)
    (size strOff strSize imageStart imageEnd : Nat) :
    Nat → Nat → Mem → Except KErr Unit × Mem
  | 0, _, mem => (.ok (), mem)
  | n + 1, i, mem =>
      if sh_type b i = ELF_SHT_SYMTAB then
        if sh_offset b i + sh_size b i > size then (.error .E_INVALID_EXE, mem)
        else if sh_entsize b i ≠ sizeofSym then (.error .E_INVALID_EXE, mem)
        else
          match bindSyms resolver b strOff strSize imageStart imageEnd
              (sh_size b i / sizeofSym) (sh_offset b i) mem with
          | (.error e, mem') => (.error e, mem')
          | (.ok _, mem') =>
              bindSections resolver b size strOff strSize imageStart imageEnd
                n (i + 1) mem'
      else
        bindSections resolver b size strOff strSize imageStart imageEnd
          n (i + 1) mem

/-- The `.strtab` search loop of `bind_functions`: every section's `sh_name`
is checked against the section-name string table; the first STRTAB section
named `".strtab"` is returned. -/
def findStrtab (b : List Nat) (shstrOff shstrSize : Nat) :
    Nat → Nat → Except KErr (Option Nat)
  | 0, _ => .ok none
  | n + 1, i =>
      if sh_name b i > shstrSize then .error .E_INVALID_EXE
      else if sh_type b i = ELF_SHT_STRTAB ∧
          cstr b (shstrOff + sh_name b i) = dotStrtab then
        .ok (some i)
      else
        findStrtab b shstrOff shstrSize n (i + 1)

/-- The tail of `bind_functions` once the `".strtab"` section `t` has been
found: validate its bounds, nonzero size and NUL termination, then walk the
SYMTAB sections. -/
def bindWithStrtab (resolver : List Nat → Nat) (b : List Nat)
    (size imageStart imageEnd t : Nat) (mem : Mem) : Except KErr Unit × Mem :=
  if sh_offset b t + sh_size b t > size then (.error .E_INVALID_EXE, mem)
  else if sh_size b t = 0 then (.error .E_INVALID_EXE, mem)
  else if byteAt b (sh_offset b t + sh_size b t - 1) ≠ 0 then
    (.error .E_INVALID_EXE, mem)
  else
    bindSections resolver b size (sh_offset b t) (sh_size b t)
      imageStart imageEnd (e_shnum b) 0 mem

/-- `bind_functions` from `kern/env.c`.  `resolver` models the external
`find_function` debug-symbol resolver (0 = not found).  Returns the result
code together with the (possibly partially) updated memory. -/
def bind_functions (resolver : List Nat → Nat) (b : List Nat)
    (size imageStart imageEnd : Nat) (mem : Mem) : Except KErr Unit × Mem :=
  if sh_offset b (e_shstrndx b) + sh_size b (e_shstrndx b) > size then
    (.error .E_INVALID_EXE, mem)
  else
    match findStrtab b (sh_offset b (e_shstrndx b)) (sh_size b (e_shstrndx b))
        (e_shnum b) 0 with
    | .error e => (.error e, mem)
    | .ok none => (.ok (), mem)
    | .ok (some t) => bindWithStrtab resolver b size imageStart imageEnd t mem

/-- The header-validation prefix of `load_icode`: every check that precedes
the program-header loop, in source order.  Returns `true` when all pass. -/
def elfHeaderOk (b : List Nat) (size : Nat) : Bool :=
  size ≥ sizeofElf ∧
  e_magic b = ELF_MAGIC ∧ e_class b = 2 ∧ e_data b = 1 ∧
    e_identVersion b = 1 ∧ e_type b = ET_EXEC ∧ e_machine b = 0x3E ∧
  e_ehsize b ≥ sizeofElf ∧
  e_shentsize b = sizeofSecthdr ∧
  e_phentsize b = sizeofProghdr ∧
  e_shstrndx b < e_shnum b ∧
  e_shoff b + sizeofSecthdr * e_shnum b ≤ size ∧
  sh_type b (e_shstrndx b) = ELF_SHT_STRTAB ∧
  sh_offset b (e_shstrndx b) + sh_size b (e_shstrndx b) ≤ size ∧
  sh_size b (e_shstrndx b) ≠ 0 ∧
  byteAt b (sh_offset b (e_shstrndx b) + sh_size b (e_shstrndx b) - 1) = 0 ∧
  e_phoff b + sizeofProghdr * e_phnum b ≤ size

/-- The tail of `load_icode` after the program-header loop: the span and
entry-point checks, setting the saved instruction pointer, and the call to
`bind_functions`.  Returns the result code, the environment (with `tf_rip`
set iff control reached that point) and the memory as mutated so far. -/
def loadFinish (resolver : List Nat → Nat) (env : Env) (mem' : Mem)
    (b : List Nat) (size mn mx : Nat) : Except KErr Unit × Env × Mem :=
  if mx ≤ mn ∨ mx ≥ UTOP then (.error .E_INVALID_EXE, env, mem')
  else if e_entry b ≥ mx ∨ e_entry b < mn then (.error .E_INVALID_EXE, env, mem')
  else
    let env' := { env with env_tf := { env.env_tf with tf_rip := e_entry b } }
    match bind_functions resolver b size mn mx mem' with
    | (.error _, mem'') => (.error .E_INVALID_EXE, env', mem'')
    | (.ok _, mem'') => (.ok (), env', mem'')

/-- `load_icode` (continued): the header validation and the program-header
loop, followed by `loadFinish`. -/
def load_icode (resolver : List Nat → Nat) (env : Env) (mem : Mem)
    (b : List Nat) (size : Nat) : Except KErr Unit × Env × Mem :=
  if ¬elfHeaderOk b size then (.error .E_INVALID_EXE, env, mem)
  else
    match loadSegs b size (e_phnum b) 0 UTOP 0 mem with
    | (.error e, mem') => (.error e, env, mem')
    | (.ok (mn, mx), mem') => loadFinish resolver env mem' b size mn mx

/-- A minimal valid single-segment ELF image: one `PT_LOAD` segment with
file size 0x40 (bytes 100..163 at offset 192), memory size 0x1000, virtual
address 0x100000, entry point 0x100000; one STRTAB section holding a single
NUL byte serves as the section-name string table. -/
def binELF : List Nat :=
  [
    127, 69, 76, 70, 2, 1, 1, 0, 0, 0, 0, 0, 0, 0, 0, 0,
    2, 0, 62, 0, 1, 0, 0, 0, 0, 0, 16, 0, 0, 0, 0, 0,
    64, 0, 0, 0, 0, 0, 0, 0, 120, 0, 0, 0, 0, 0, 0, 0,
    0, 0, 0, 0, 64, 0, 56, 0, 1, 0, 64, 0, 1, 0, 0, 0,
    1, 0, 0, 0, 0, 0, 0, 0, 192, 0, 0, 0, 0, 0, 0, 0,
    0, 0, 16, 0, 0, 0, 0, 0, 0, 0, 0, 0, 0, 0, 0, 0,
    64, 0, 0, 0, 0, 0, 0, 0, 0, 16, 0, 0, 0, 0, 0, 0,
    0, 0, 0, 0, 0, 0, 0, 0, 0, 0, 0, 0, 3, 0, 0, 0,
    0, 0, 0, 0, 0, 0, 0, 0, 0, 0, 0, 0, 0, 0, 0, 0,
    184, 0, 0, 0, 0, 0, 0, 0, 1, 0, 0, 0, 0, 0, 0, 0,
    0, 0, 0, 0, 0, 0, 0, 0, 0, 0, 0, 0, 0, 0, 0, 0,
    0, 0, 0, 0, 0, 0, 0, 0, 0, 0, 0, 0, 0, 0, 0, 0,
    100, 101, 102, 103, 104, 105, 106, 107, 108, 109, 110, 111, 112, 113, 114, 115,
    116, 117, 118, 119, 120, 121, 122, 123, 124, 125, 126, 127, 128, 129, 130, 131,
    132, 133, 134, 135, 136, 137, 138, 139, 140, 141, 142, 143, 144, 145, 146, 147,
    148, 149, 150, 151, 152, 153, 154, 155, 156, 157, 158, 159, 160, 161, 162, 163
  ]

/-- A resolver that knows no symbols. -/
def resolver0 : List Nat → Nat := fun _ => 0

/-- All-85 test memory. -/
def memZ : Mem := fun _ => 85

/-- A binary fragment holding three section headers: a section-name string
table, a `".strtab"` string table, and a SYMTAB section with one
GLOBAL OBJECT DEFAULT pointer-sized symbol named `"f"` at value
0x201000. -/
def binBind : List Nat :=
  [
    0, 0, 0, 0, 0, 0, 0, 0, 0, 0, 0, 0, 0, 0, 0, 0,
    0, 0, 0, 0, 0, 0, 0, 0, 0, 0, 0, 0, 0, 0, 0, 0,
    0, 0, 0, 0, 0, 0, 0, 0, 64, 0, 0, 0, 0, 0, 0, 0,
    0, 0, 0, 0, 0, 0, 0, 0, 3, 0, 0, 0, 0, 0, 0, 0,
    0, 0, 0, 0, 3, 0, 0, 0, 0, 0, 0, 0, 0, 0, 0, 0,
    0, 0, 0, 0, 0, 0, 0, 0, 0, 1, 0, 0, 0, 0, 0, 0,
    16, 0, 0, 0, 0, 0, 0, 0, 0, 0, 0, 0, 0, 0, 0, 0,
    0, 0, 0, 0, 0, 0, 0, 0, 0, 0, 0, 0, 0, 0, 0, 0,
    1, 0, 0, 0, 3, 0, 0, 0, 0, 0, 0, 0, 0, 0, 0, 0,
    0, 0, 0, 0, 0, 0, 0, 0, 16, 1, 0, 0, 0, 0, 0, 0,
    16, 0, 0, 0, 0, 0, 0, 0, 0, 0, 0, 0, 0, 0, 0, 0,
    0, 0, 0, 0, 0, 0, 0, 0, 0, 0, 0, 0, 0, 0, 0, 0,
    9, 0, 0, 0, 2, 0, 0, 0, 0, 0, 0, 0, 0, 0, 0, 0,
    0, 0, 0, 0, 0, 0, 0, 0, 32, 1, 0, 0, 0, 0, 0, 0,
    24, 0, 0, 0, 0, 0, 0, 0, 0, 0, 0, 0, 0, 0, 0, 0,
    0, 0, 0, 0, 0, 0, 0, 0, 24, 0, 0, 0, 0, 0, 0, 0,
    0, 46, 115, 116, 114, 116, 97, 98, 0, 0, 0, 0, 0, 0, 0, 0,
    0, 102, 0, 0, 0, 0, 0, 0, 0, 0, 0, 0, 0, 0, 0, 0,
    1, 0, 0, 0, 17, 0, 0, 0, 0, 16, 32, 0, 0, 0, 0, 0,
    8, 0, 0, 0, 0, 0, 0, 0
  ]

/-- A resolver that resolves exactly the name `"f"` to address 0xABCDEF. -/
def resolverF : List Nat → Nat := fun name => if name = [102] then 0xABCDEF else 0

/-! ### Concrete sample states used by the witness theorems -/

/-- A runnable environment in slot 1 with identifier `4096 | 1` and parent 0. -/
def sampleEnv1 : Env :=
  { env_id := 4097, env_parent_id := 0, env_type := .ENV_TYPE_KERNEL,
    env_status := .ENV_RUNNABLE, env_runs := 0, env_tf := {} }

/-- A runnable child of `sampleEnv1` in slot 2 (identifier `8192 | 2`). -/
def sampleEnv2 : Env :=
  { env_id := 8194, env_parent_id := 4097, env_type := .ENV_TYPE_KERNEL,
    env_status := .ENV_RUNNABLE, env_runs := 0, env_tf := {} }

/-- Table with `sampleEnv1` in slot 1 and `sampleEnv2` in slot 2. -/
def sampleEnvs : Nat → Env :=
  fun i => if i = 1 then sampleEnv1 else if i = 2 then sampleEnv2 else {}

/-- State whose current environment is slot 1. -/
def stA : KState :=
  { envs := sampleEnvs, env_free_list := [], curenv := some 1,
    stack_top := 0x2000000 }

/-- State with no current environment and slot 0 free. -/
def stB : KState :=
  { envs := sampleEnvs, env_free_list := [0], curenv := none,
    stack_top := 0x2000000 }

/-- State whose current environment, slot 1, is dying. -/
def stC : KState :=
  { envs := fun i => if i = 1 then { sampleEnv1 with env_status := .ENV_DYING } else {},
    env_free_list := [], curenv := some 1, stack_top := 0x2000000 }

/-- State in which slot 3 has been freed while holding identifier
`4096 + 3`. -/
def stD : KState :=
  { envs := fun i => if i = 3 then { env_id := 4099, env_status := .ENV_FREE } else {},
    env_free_list := [3], curenv := none, stack_top := 0x2000000 }

/-! ### Basic lemmas about the table update -/

@[simp]
theorem updEnv_same (f : Nat → Env) (i : Nat) (e : Env) : updEnv f i e i = e := by
  simp [updEnv]

theorem updEnv_other (f : Nat → Env) (i : Nat) (e : Env) {j : Nat} (h : j ≠ i) :
    updEnv f i e j = f j := by
  simp [updEnv, h]


end KernEnv

namespace KernEnv

/-- C9: `envid2env` with identifier 0 never fails: it returns 0 and stores the
current environment pointer, which is null when no current environment
exists — regardless of whether permission checking is requested. -/
theorem envid2env_zero_spec (st : KState) (ncp : Bool) :
    envid2env st 0 ncp = some (.ok st.curenv) ∧
      (st.curenv = none → envid2env st 0 ncp = some (.ok none)) :=
  ⟨by simp [envid2env], fun h => by simp [envid2env, h]⟩

/-- Witness for C9 at the concrete state `stB`, which has no current
environment: lookup of identifier 0 succeeds and stores a null pointer. -/
theorem envid2env_zero_spec_w :
    envid2env stB 0 true = some (.ok none) :=
  (envid2env_zero_spec stB true).2 rfl

/-- C1: for a nonzero identifier (and an existing current environment, which
the permission check dereferences), `envid2env` resolves to slot
`ENVX envid` and fails with `-E_BAD_ENV` (null stored pointer) exactly when
the slot is `ENV_FREE`, its stored identifier differs, or permission checking
is requested and the slot is neither the current environment itself nor one
whose parent identifier equals the current environment's identifier;
otherwise it succeeds storing the resolved environment. -/
theorem envid2env_nonzero_spec (st : KState) (envid : Int) (ncp : Bool)
    (c : Nat) (h0 : envid ≠ 0) (hc : st.curenv = some c) :
    envid2env st envid ncp =
      if (st.envs (ENVX envid)).env_status = .ENV_FREE
          ∨ (st.envs (ENVX envid)).env_id ≠ envid
          ∨ (ncp ∧ ENVX envid ≠ c
              ∧ (st.envs (ENVX envid)).env_parent_id ≠ (st.envs c).env_id) then
        some (.error .E_BAD_ENV)
      else
        some (.ok (some (ENVX envid))) := by
  simp only [envid2env, hc, if_neg h0]
  split_ifs with h1 h2 h3 <;> simp_all

/-- Witness for C1: in `stA` (current environment slot 1), looking up the
identifier of its immediate child in slot 2 with permission checking
succeeds. -/
theorem envid2env_nonzero_spec_w :
    envid2env stA 8194 true = some (.ok (some 2)) := by
  have h := envid2env_nonzero_spec stA 8194 true 1 (by decide) rfl
  rw [h]
  rfl

end KernEnv

namespace KernEnv

/-- C7: `env_destroy` on the current environment frees it (status `ENV_FREE`,
slot pushed on the free list) and yields to the external scheduler without
returning; on a non-current target it returns normally with the target left
`ENV_DYING`, every other slot (in particular the current environment and its
status) untouched, and the free list and current pointer unchanged. -/
theorem env_destroy_spec (st : KState) (idx : Nat) :
    (st.curenv = some idx →
      ∃ st', env_destroy st idx = .yielded st' ∧
        (st'.envs idx).env_status = .ENV_FREE ∧
        st'.env_free_list = idx :: st.env_free_list ∧
        (∀ j, j ≠ idx → st'.envs j = st.envs j)) ∧
    (st.curenv ≠ some idx →
      ∃ st', env_destroy st idx = .returned st' ∧
        st'.envs idx = { st.envs idx with env_status := .ENV_DYING } ∧
        (∀ j, j ≠ idx → st'.envs j = st.envs j) ∧
        st'.curenv = st.curenv ∧
        st'.env_free_list = st.env_free_list ∧
        (∀ c, st.curenv = some c →
          (st'.envs c).env_status = (st.envs c).env_status)) := by
  constructor
  · intro h
    have hd : env_destroy st idx =
        .yielded (env_free (setStatus st idx .ENV_DYING) idx) := by
      simp [env_destroy, setStatus, h]
    refine ⟨_, hd, ?_, ?_, ?_⟩
    · simp [env_free, setStatus]
    · simp [env_free, setStatus]
    · intro j hj
      simp [env_free, setStatus, updEnv, hj]
  · intro h
    have hd : env_destroy st idx = .returned (setStatus st idx .ENV_DYING) := by
      simp [env_destroy, setStatus, h]
    refine ⟨_, hd, by simp [setStatus], ?_, rfl, rfl, ?_⟩
    · intro j hj
      simp [setStatus, updEnv, hj]
    · intro c hcur
      have hne : c ≠ idx := by
        intro he
        exact h (by rw [hcur, he])
      simp [setStatus, updEnv, hne]

/-- Witness for C7 at `stA` (current = slot 1): destroying the non-current
slot 2 returns normally and leaves slot 2 `ENV_DYING`. -/
theorem env_destroy_spec_w :
    ∃ st', env_destroy stA 2 = .returned st' ∧
      (st'.envs 2).env_status = .ENV_DYING := by
  obtain ⟨st', he, hv, _⟩ := (env_destroy_spec stA 2).2 (by decide)
  exact ⟨st', he, by rw [hv]⟩

end KernEnv

namespace KernEnv

/-- C3: `env_alloc` fails with `-E_NO_FREE_ENV` exactly when the free list is
empty, and on failure returns the state completely unchanged (so lookup sees
no partially initialized slot); on success the popped free-list head `idx`
holds the new identifier `newEnvId`, the given parent and type, status
`ENV_RUNNABLE`, run count 0, and a trap frame that is zero except for the
kernel segment selectors, the current stack-top watermark and
`FL_IF ||| FL_IOPL_0`; no other slot is modified. -/
theorem env_alloc_spec (st : KState) (parent_id : Int) (type : EnvType) :
    (env_alloc st parent_id type = (.error .E_NO_FREE_ENV, st) ↔
      st.env_free_list = []) ∧
    (∀ idx st', env_alloc st parent_id type = (.ok idx, st') →
      ∃ rest, st.env_free_list = idx :: rest ∧
        st'.env_free_list = rest ∧
        st'.envs idx =
          { env_id := newEnvId (st.envs idx).env_id idx
            env_parent_id := parent_id
            env_type := type
            env_status := .ENV_RUNNABLE
            env_runs := 0
            env_tf :=
              { zeroTrapframe with
                  tf_ds := GD_KD
                  tf_es := GD_KD
                  tf_ss := GD_KD
                  tf_cs := GD_KT
                  tf_rsp := st.stack_top
                  tf_rflags := FL_IF ||| FL_IOPL_0 } } ∧
        (∀ j, j ≠ idx → st'.envs j = st.envs j) ∧
        st'.curenv = st.curenv) := by
  constructor
  · cases hl : st.env_free_list with
    | nil => simp [env_alloc, hl]
    | cons a l => simp [env_alloc, hl]
  · intro idx st' h
    cases hl : st.env_free_list with
    | nil => simp [env_alloc, hl] at h
    | cons a l =>
        rw [env_alloc, hl] at h
        obtain ⟨ha, hst⟩ := Prod.mk.injEq .. ▸ h
        have ha' : a = idx := by simpa using ha
        subst ha'
        refine ⟨l, rfl, ?_, ?_, ?_, ?_⟩ <;> rw [← hst]
        · simp [allocEnv, allocTrapframe]
        · intro j hj
          simp [updEnv, hj]

/-- Witness for C3: allocating from `stB` (free list `[0]`) puts a runnable
environment with a positive fresh identifier into slot 0. -/
theorem env_alloc_spec_w :
    ∃ st', env_alloc stB 0 .ENV_TYPE_KERNEL = (.ok 0, st') ∧
      (st'.envs 0).env_status = .ENV_RUNNABLE ∧
      (st'.envs 0).env_id = 4096 := by
  obtain ⟨rest, _, _, hslot, _, _⟩ := (env_alloc_spec stB 0 .ENV_TYPE_KERNEL).2 0
    (env_alloc stB 0 .ENV_TYPE_KERNEL).2 rfl
  refine ⟨(env_alloc stB 0 .ENV_TYPE_KERNEL).2, rfl, ?_, ?_⟩
  · rw [hslot]
  · rw [hslot]
    rfl

end KernEnv

namespace KernEnv

/-- Frame and status facts about `env_free`. -/
theorem env_free_envs_other (st : KState) (idx : Nat) {j : Nat} (h : j ≠ idx) :
    (env_free st idx).envs j = st.envs j := by
  simp [env_free, setStatus, updEnv, h]

/-- `env_free` marks the slot `ENV_FREE` and changes nothing else in it. -/
theorem env_free_envs_self (st : KState) (idx : Nat) :
    (env_free st idx).envs idx = { st.envs idx with env_status := .ENV_FREE } := by
  simp [env_free, setStatus]

/-- `env_free` does not move the current pointer. -/
@[simp]
theorem env_free_curenv (st : KState) (idx : Nat) :
    (env_free st idx).curenv = st.curenv := rfl

/-- The committing tail of `env_run` dispatches the target with the
`RunCommitted` observations and touches no other slot. -/
theorem envRunCommit_spec (st : KState) (idx : Nat) :
    ∃ st' tf, envRunCommit st idx = .dispatched st' tf ∧
      RunCommitted st st' idx tf ∧
      (∀ j, j ≠ idx → st'.envs j = st.envs j) := by
  refine ⟨_, _, rfl, ⟨rfl, by simp, by simp, by simp, by simp⟩, ?_⟩
  intro j hj
  simp [updEnv, hj]

/-- C8: `env_run`.  With a current environment `c`:
* if `c` is `ENV_DYING` and is also the target, it is freed, nothing is
  committed as current (the pointer is unmoved and the slot is `ENV_FREE`,
  its run counter untouched) and control passes to the external scheduler;
* if `c` is `ENV_DYING` and not the target, it is freed and the target is
  committed and dispatched;
* if `c` is `ENV_RUNNING`, it is downgraded to `ENV_RUNNABLE` (when distinct
  from the target) and the target is committed and dispatched;
* any other status of `c` (in particular `ENV_NOT_RUNNABLE`) is preserved;
and with no current environment the target is committed and dispatched. -/
theorem env_run_spec (st : KState) (idx : Nat) :
    (∀ c, st.curenv = some c →
      ((st.envs c).env_status = .ENV_DYING → c = idx →
        ∃ st', env_run st idx = .toScheduler st' ∧
          (st'.envs idx).env_status = .ENV_FREE ∧
          st'.curenv = st.curenv ∧
          (st'.envs idx).env_runs = (st.envs idx).env_runs ∧
          (∀ j, j ≠ idx → st'.envs j = st.envs j)) ∧
      ((st.envs c).env_status = .ENV_DYING → c ≠ idx →
        ∃ st' tf, env_run st idx = .dispatched st' tf ∧
          (st'.envs c).env_status = .ENV_FREE ∧
          RunCommitted st st' idx tf) ∧
      ((st.envs c).env_status = .ENV_RUNNING →
        ∃ st' tf, env_run st idx = .dispatched st' tf ∧
          (c ≠ idx → (st'.envs c).env_status = .ENV_RUNNABLE) ∧
          RunCommitted st st' idx tf) ∧
      ((st.envs c).env_status ≠ .ENV_DYING →
        (st.envs c).env_status ≠ .ENV_RUNNING →
        ∃ st' tf, env_run st idx = .dispatched st' tf ∧
          (c ≠ idx → (st'.envs c).env_status = (st.envs c).env_status) ∧
          RunCommitted st st' idx tf)) ∧
    (st.curenv = none →
      ∃ st' tf, env_run st idx = .dispatched st' tf ∧
        RunCommitted st st' idx tf) := by
  constructor
  · intro c hc
    refine ⟨?_, ?_, ?_, ?_⟩
    · intro hdy he
      have hr : env_run st idx = .toScheduler (env_free st c) := by
        simp only [env_run, hc]
        rw [if_pos hdy, if_pos he]
      refine ⟨_, hr, ?_, by simp, ?_, ?_⟩
      · rw [← he, env_free_envs_self]
      · rw [← he, env_free_envs_self]
      · intro j hj
        refine env_free_envs_other st c ?_
        rw [he]
        exact hj
    · intro hdy hne
      have hr : env_run st idx = envRunCommit (env_free st c) idx := by
        simp only [env_run, hc]
        rw [if_pos hdy, if_neg hne]
      obtain ⟨st', tf, he, hcom, hfr⟩ := envRunCommit_spec (env_free st c) idx
      refine ⟨st', tf, hr ▸ he, ?_, ?_⟩
      · rw [hfr c hne, env_free_envs_self]
      · obtain ⟨h1, h2, h3, h4, h5⟩ := hcom
        have hid : (env_free st c).envs idx = st.envs idx :=
          env_free_envs_other st c (fun h => hne h.symm)
        exact ⟨h1, h2, by rw [h3, hid], h4, by rw [h5, hid]⟩
    · intro hrun
      have hr : env_run st idx = envRunCommit (setStatus st c .ENV_RUNNABLE) idx := by
        simp only [env_run, hc]
        rw [if_neg (by simp [hrun]), if_pos hrun]
      obtain ⟨st', tf, he, hcom, hfr⟩ := envRunCommit_spec (setStatus st c .ENV_RUNNABLE) idx
      refine ⟨st', tf, hr ▸ he, ?_, ?_⟩
      · intro hne
        rw [hfr c (fun h => hne h)]
        simp [setStatus]
      · obtain ⟨h1, h2, h3, h4, h5⟩ := hcom
        by_cases hci : c = idx
        · subst hci
          refine ⟨h1, h2, ?_, h4, ?_⟩
          · rw [h3]
            simp [setStatus]
          · rw [h5]
            simp [setStatus]
        · have hic : idx ≠ c := fun h => hci h.symm
          have hid : (setStatus st c .ENV_RUNNABLE).envs idx = st.envs idx := by
            simp [setStatus, updEnv, hic]
          exact ⟨h1, h2, by rw [h3, hid], h4, by rw [h5, hid]⟩
    · intro hnd hnr
      have hr : env_run st idx = envRunCommit st idx := by
        simp only [env_run, hc]
        rw [if_neg hnd, if_neg hnr]
      obtain ⟨st', tf, he, hcom, hfr⟩ := envRunCommit_spec st idx
      exact ⟨st', tf, hr ▸ he, fun hne => by rw [hfr c hne], hcom⟩
  · intro hc
    have hr : env_run st idx = envRunCommit st idx := by
      simp [env_run, hc]
    obtain ⟨st', tf, he, hcom, _⟩ := envRunCommit_spec st idx
    exact ⟨st', tf, hr ▸ he, hcom⟩

/-- Witness for C8 at the concrete state `stC` (current slot 1 is dying and is
also the run target): `env_run` frees it and hands control to the scheduler;
slot 1 ends `ENV_FREE` and nothing was committed. -/
theorem env_run_spec_w :
    ∃ st', env_run stC 1 = .toScheduler st' ∧
      (st'.envs 1).env_status = .ENV_FREE ∧ st'.curenv = stC.curenv := by
  obtain ⟨st', hr, hfree, hcur, _, _⟩ :=
    ((env_run_spec stC 1).1 1 rfl).1 rfl rfl
  exact ⟨st', hr, hfree, hcur⟩

end KernEnv

namespace KernEnv

/-! ### Arithmetic of the generation mask -/

/-- Clearing the low ten bits of `2^10 * q + s` (with `s < 2^10`) by the
32-bit pattern of `~(NENV - 1)` recovers `2^10 * q`. -/
theorem land_mask_of_mul {q s : Nat} (hq : q < 2 ^ 22) (hs : s < 2 ^ 10) :
    (2 ^ 10 * q + s) &&& (2 ^ 32 - 2 ^ 10) = 2 ^ 10 * q := by
  have hM : (2 ^ 32 - 2 ^ 10 : Nat) = 2 ^ 10 * (2 ^ 22 - 1) := by norm_num
  refine Nat.eq_of_testBit_eq fun i => ?_
  rw [Nat.testBit_and, Nat.testBit_mul_pow_two_add _ hs, hM,
    Nat.testBit_mul_pow_two, Nat.testBit_mul_pow_two,
    Nat.testBit_two_pow_sub_one]
  by_cases h10 : i < 10
  · simp [h10, Nat.not_le.mpr h10]
  · push_neg at h10
    by_cases h32 : i < 32
    · have h22 : i - 10 < 22 := by omega
      simp [Nat.not_lt.mpr h10, h10, h22]
    · push_neg at h32
      have h22 : ¬i - 10 < 22 := by omega
      have hbit : q.testBit (i - 10) = false :=
        Nat.testBit_lt_two_pow
          (lt_of_lt_of_le hq (Nat.pow_le_pow_right (by norm_num) (by omega)))
      simp [Nat.not_lt.mpr h10, h10, h22, hbit]

/-- `bits32` on a nonnegative value below `2^32` is the identity. -/
theorem bits32_of_lt {n : Nat} (h : n < 2 ^ 32) : bits32 ((n : Nat) : Int) = n := by
  unfold bits32
  omega

end KernEnv

namespace KernEnv

/-- The generation computed for a slot whose previous identifier was an
issued identifier `g + idx` (generation `g`, slot `idx`): the stride is added
and the index bits are masked off, giving `g + 4096`, except that a result
that is non-positive as a 32-bit signed value resets to the minimum stride
`4096`. -/
theorem nextGeneration_issued (g idx : Nat) (hgm : g % 2 ^ 10 = 0)
    (hg31 : g < 2 ^ 31) (hidx : idx < 2 ^ 10) :
    nextGeneration ((g + idx : Nat) : Int) =
      ((if g + 2 ^ 12 < 2 ^ 31 then g + 2 ^ 12 else 2 ^ 12 : Nat) : Int) := by
  obtain ⟨q, hq⟩ := Nat.dvd_of_mod_eq_zero hgm
  have hstride : ((1 <<< ENVGENSHIFT : Nat) : Int) = ((4096 : Nat) : Int) := by
    norm_num [ENVGENSHIFT, Nat.shiftLeft_eq]
  have hcast : ((g + idx : Nat) : Int) + ((1 <<< ENVGENSHIFT : Nat) : Int) =
      ((g + idx + 4096 : Nat) : Int) := by
    rw [hstride]
    push_cast
    ring
  have hlt : g + idx + 4096 < 2 ^ 32 := by omega
  have hq22 : q + 4 < 2 ^ 22 := by omega
  have hrearr : g + idx + 4096 = 2 ^ 10 * (q + 4) + idx := by omega
  have hmask : (g + idx + 4096) &&& (2 ^ 32 - NENV) = g + 4096 := by
    have hN : (2 ^ 32 - NENV : Nat) = 2 ^ 32 - 2 ^ 10 := by norm_num [NENV]
    rw [hN, hrearr, land_mask_of_mul hq22 hidx]
    omega
  simp only [nextGeneration, hcast, bits32_of_lt hlt, hmask]
  unfold ofUInt32
  split_ifs <;> simp_all [ENVGENSHIFT, Nat.shiftLeft_eq] <;> omega

/-- The identifier stored by `env_alloc` for a reused slot: the new
generation (per `nextGeneration_issued`) or-ed with the slot index, which is
their sum. -/
theorem newEnvId_issued (g idx : Nat) (hgm : g % 2 ^ 10 = 0)
    (hg31 : g < 2 ^ 31) (hidx : idx < 2 ^ 10) :
    newEnvId ((g + idx : Nat) : Int) idx =
      (((if g + 2 ^ 12 < 2 ^ 31 then g + 2 ^ 12 else 2 ^ 12 : Nat) + idx : Nat) : Int) := by
  have hgen := nextGeneration_issued g idx hgm hg31 hidx
  set g' : Nat := if g + 2 ^ 12 < 2 ^ 31 then g + 2 ^ 12 else 2 ^ 12 with hg'
  have hg'm : g' % 2 ^ 10 = 0 := by
    rw [hg']
    split_ifs <;> omega
  have hg'31 : g' < 2 ^ 31 := by
    rw [hg']
    split_ifs <;> omega
  obtain ⟨q', hq'⟩ := Nat.dvd_of_mod_eq_zero hg'm
  have hor : g' ||| idx = g' + idx := by
    rw [hq']
    exact (Nat.mul_add_lt_is_or hidx q').symm
  unfold newEnvId
  rw [hgen, bits32_of_lt (by omega), hor]
  unfold ofUInt32
  rw [if_pos (by omega)]

end KernEnv

namespace KernEnv

/-- `ENVX` of an issued identifier `g + idx` is the slot index `idx`. -/
theorem ENVX_issued (g idx : Nat) (hgm : g % 2 ^ 10 = 0)
    (hg31 : g < 2 ^ 31) (hidx : idx < 2 ^ 10) :
    ENVX ((g + idx : Nat) : Int) = idx := by
  unfold ENVX
  rw [bits32_of_lt (by omega)]
  have hN : (NENV - 1 : Nat) = 2 ^ 10 - 1 := by norm_num [NENV]
  rw [hN, Nat.and_pow_two_sub_one_eq_mod]
  omega

/-- A lookup whose slot holds a different identifier fails with
`-E_BAD_ENV`, before any permission check. -/
theorem envid2env_stale (st : KState) (envid : Int) (ncp : Bool)
    (h0 : envid ≠ 0) (hne : (st.envs (ENVX envid)).env_id ≠ envid) :
    envid2env st envid ncp = some (.error .E_BAD_ENV) := by
  simp only [envid2env]
  rw [if_neg h0, if_pos (Or.inr hne)]

/-- C2: reallocating a slot whose previous (issued) identifier was `g + idx`
stores the identifier `g' + idx` where `g'` is the previous generation plus
the stride `2^ENVGENSHIFT` with the index bits masked off, reset to the
minimum stride exactly when that sum is no longer a positive 32-bit value;
hence the stored identifier is strictly positive, the generation strictly
increases except at the wraparound reset, and lookup of the old identifier
now fails with `-E_BAD_ENV`. -/
theorem env_alloc_reuse_spec (st : KState) (idx : Nat) (rest : List Nat)
    (parent_id : Int) (type : EnvType) (g : Nat)
    (hfl : st.env_free_list = idx :: rest) (hidx : idx < NENV)
    (hold : (st.envs idx).env_id = ((g + idx : Nat) : Int))
    (hgm : g % NENV = 0) (hg0 : 0 < g) (hg31 : g < 2 ^ 31) :
    ∃ st' g', env_alloc st parent_id type = (.ok idx, st') ∧
      (st'.envs idx).env_id = ((g' + idx : Nat) : Int) ∧
      g' % NENV = 0 ∧ 0 < g' ∧ g' < 2 ^ 31 ∧
      (g + 2 ^ ENVGENSHIFT < 2 ^ 31 → g' = g + 2 ^ ENVGENSHIFT ∧ g < g') ∧
      (¬g + 2 ^ ENVGENSHIFT < 2 ^ 31 → g' = 2 ^ ENVGENSHIFT) ∧
      0 < (st'.envs idx).env_id ∧
      (st'.envs idx).env_id ≠ (st.envs idx).env_id ∧
      (∀ ncp, envid2env st' ((g + idx : Nat) : Int) ncp =
        some (.error .E_BAD_ENV)) := by
  have hN : (NENV : Nat) = 2 ^ 10 := by norm_num [NENV]
  have hEG : (2 ^ ENVGENSHIFT : Nat) = 2 ^ 12 := by norm_num [ENVGENSHIFT]
  rw [hN] at hgm hidx
  have halloc : env_alloc st parent_id type =
      (.ok idx,
        { st with
            envs := updEnv st.envs idx (allocEnv st idx parent_id type)
            env_free_list := rest
            stack_top := st.stack_top - USTACKSIZE }) := by
    unfold env_alloc
    rw [hfl]
  set g' : Nat :=
    if g + 2 ^ ENVGENSHIFT < 2 ^ 31 then g + 2 ^ ENVGENSHIFT else 2 ^ ENVGENSHIFT
    with hgdef
  have hnew : newEnvId ((g + idx : Nat) : Int) idx = ((g' + idx : Nat) : Int) := by
    rw [hgdef]
    simp only [hEG]
    exact newEnvId_issued g idx hgm hg31 hidx
  have hslot : (updEnv st.envs idx (allocEnv st idx parent_id type) idx).env_id =
      ((g' + idx : Nat) : Int) := by
    rw [updEnv_same]
    show newEnvId (st.envs idx).env_id idx = _
    rw [hold, hnew]
  have hg'm : g' % NENV = 0 := by
    rw [hgdef, hN]
    split_ifs <;> simp only [hEG] <;> omega
  have hg'0 : 0 < g' := by
    rw [hgdef]
    split_ifs <;> simp only [hEG] <;> omega
  have hg'31 : g' < 2 ^ 31 := by
    rw [hgdef]
    split_ifs with h
    · simp only [hEG] at h ⊢
      omega
    · simp only [hEG]
      omega
  have hgne : g' ≠ g := by
    rw [hgdef]
    split_ifs <;> simp only [hEG] at * <;> omega
  refine ⟨_, g', halloc, hslot, hg'm, hg'0, hg'31, ?_, ?_, ?_, ?_, ?_⟩
  · intro h
    have hgeq : g' = g + 2 ^ ENVGENSHIFT := by rw [hgdef, if_pos h]
    refine ⟨hgeq, ?_⟩
    rw [hgeq, hEG]
    omega
  · intro h
    rw [hgdef, if_neg h]
  · show 0 < (updEnv st.envs idx (allocEnv st idx parent_id type) idx).env_id
    rw [hslot]
    exact_mod_cast Nat.add_pos_left hg'0 idx
  · show (updEnv st.envs idx (allocEnv st idx parent_id type) idx).env_id ≠
      (st.envs idx).env_id
    rw [hslot, hold]
    intro hcontra
    have : g' + idx = g + idx := by exact_mod_cast hcontra
    omega
  · intro ncp
    have hne0 : ((g + idx : Nat) : Int) ≠ 0 := by
      have : (0 : Int) < ((g + idx : Nat) : Int) :=
        Int.natCast_pos.mpr (Nat.add_pos_left hg0 idx)
      omega
    have hx : ENVX ((g + idx : Nat) : Int) = idx := ENVX_issued g idx hgm hg31 hidx
    refine envid2env_stale _ _ _ hne0 ?_
    rw [hx]
    show (updEnv st.envs idx (allocEnv st idx parent_id type) idx).env_id ≠ _
    rw [hslot]
    intro hcontra
    have : g' + idx = g + idx := by exact_mod_cast hcontra
    omega

/-- Witness for C2 at `stD`: slot 3 was freed holding identifier
`4096 + 3`; reallocation stores `8192 + 3` and the stale lookup fails. -/
theorem env_alloc_reuse_spec_w :
    ∃ st', env_alloc stD 0 .ENV_TYPE_KERNEL = (.ok 3, st') ∧
      (st'.envs 3).env_id = 8195 ∧
      envid2env st' 4099 true = some (.error .E_BAD_ENV) := by
  obtain ⟨st', g', halloc, hid, _, _, _, hinc, _, _, _, hlook⟩ :=
    env_alloc_reuse_spec stD 3 [] 0 .ENV_TYPE_KERNEL 4096 rfl
      (by norm_num [NENV]) rfl (by norm_num [NENV]) (by norm_num) (by norm_num)
  have hg' : g' = 4096 + 2 ^ ENVGENSHIFT :=
    (hinc (by norm_num [ENVGENSHIFT])).1
  refine ⟨st', halloc, ?_, hlook true⟩
  rw [hid, hg']
  norm_num [ENVGENSHIFT]

end KernEnv

namespace KernEnv

/-- C4: a loadable program-header entry whose source range lies within the
buffer and whose destination range stays below `UTOP` is loaded by copying
exactly `min(p_filesz, p_memsz)` bytes from `p_offset` to `p_va`,
zero-filling up to `p_memsz`, and touching no other byte; and whenever
`load_icode` succeeds overall, the environment's saved instruction pointer
is the ELF entry point. -/
theorem loadSeg_spec (b : List Nat) (size i : Nat) (mem : Mem)
    (hsrc : p_offset b i + min (p_filesz b i) (p_memsz b i) ≤ size)
    (hdst : p_va b i + p_memsz b i ≤ UTOP) :
    (∃ mem', loadSeg b size i mem = .ok mem' ∧
      (∀ a, p_va b i ≤ a → a < p_va b i + min (p_filesz b i) (p_memsz b i) →
        mem' a = byteAt b (p_offset b i + (a - p_va b i))) ∧
      (∀ a, p_va b i + min (p_filesz b i) (p_memsz b i) ≤ a →
        a < p_va b i + p_memsz b i → mem' a = 0) ∧
      (∀ a, a < p_va b i ∨ p_va b i + p_memsz b i ≤ a → mem' a = mem a)) ∧
    (∀ resolver env mem₀ b₀ size₀ env' mem'',
      load_icode resolver env mem₀ b₀ size₀ = (.ok (), env', mem'') →
      env'.env_tf.tf_rip = e_entry b₀) := by
  constructor
  · have h1 : ¬p_offset b i + min (p_filesz b i) (p_memsz b i) > size := by omega
    have h2 : ¬p_va b i + p_memsz b i > UTOP := by omega
    refine ⟨_, by rw [loadSeg, if_neg h1, if_neg h2], ?_, ?_, ?_⟩
    · intro a ha1 ha2
      have hin : p_va b i ≤ a ∧ a < p_va b i + min (p_filesz b i) (p_memsz b i) :=
        ⟨ha1, ha2⟩
      simp only [memsetZero, memcpyBin]
      rw [if_neg (by omega), if_pos hin]
    · intro a ha1 ha2
      simp only [memsetZero]
      rw [if_pos (by omega)]
    · intro a ha
      simp only [memsetZero, memcpyBin]
      rw [if_neg (by omega), if_neg (by omega)]
  · intro resolver env mem₀ b₀ size₀ env' mem'' h
    unfold load_icode at h
    split at h
    · simp at h
    · split at h
      · simp at h
      · unfold loadFinish at h
        split at h
        · simp at h
        · split at h
          · simp at h
          · split at h
            · simp at h
            · simp only [Prod.mk.injEq] at h
              obtain ⟨-, henv, -⟩ := h
              rw [← henv]

end KernEnv

namespace KernEnv

/-- Witness for C4: loading the single segment of `binELF` copies its 0x40
file bytes to 0x100000, zero-fills through 0x100FFF, leaves neighbours
untouched, and the successful overall load of `binELF` records entry point
0x100000 in the saved instruction pointer. -/
theorem loadSeg_spec_w :
    ∃ mem', loadSeg binELF 256 0 memZ = .ok mem' ∧
      mem' 0x100000 = 100 ∧ mem' 0x10003F = 163 ∧
      mem' 0x100040 = 0 ∧ mem' 0x100FFF = 0 ∧
      mem' 0xFFFFF = 85 ∧ mem' 0x101000 = 85 ∧
      (load_icode resolver0 {} memZ binELF 256).2.1.env_tf.tf_rip = 0x100000 := by
  obtain ⟨⟨mem', hok, hcopy, hzero, hframe⟩, hrip⟩ :=
    loadSeg_spec binELF 256 0 memZ (by decide) (by decide)
  refine ⟨mem', hok, ?_, ?_, ?_, ?_, ?_, ?_, ?_⟩
  · rw [hcopy 0x100000 (by decide) (by decide)]
    decide
  · rw [hcopy 0x10003F (by decide) (by decide)]
    decide
  · exact hzero 0x100040 (by decide) (by decide)
  · exact hzero 0x100FFF (by decide) (by decide)
  · rw [hframe 0xFFFFF (by decide)]
    rfl
  · rw [hframe 0x101000 (by decide)]
    rfl
  · have hload : load_icode resolver0 {} memZ binELF 256 =
        (.ok (), (load_icode resolver0 {} memZ binELF 256).2.1,
          (load_icode resolver0 {} memZ binELF 256).2.2) := by
      rfl
    rw [hrip resolver0 {} memZ binELF 256 _ _ hload]
    decide

end KernEnv

namespace KernEnv

/-- Unfolding equation of `loadSegs` for zero remaining entries. -/
theorem loadSegs_zero (b : List Nat) (size i mn mx : Nat) (mem : Mem) :
    loadSegs b size 0 i mn mx mem = (.ok (mn, mx), mem) := by
  rw [loadSegs]

/-- Unfolding equation of `loadSegs` for one more entry. -/
theorem loadSegs_succ (b : List Nat) (size n i mn mx : Nat) (mem : Mem) :
    loadSegs b size (n + 1) i mn mx mem =
      if p_type b i = ELF_PROG_LOAD then
        match loadSeg b size i mem with
        | .error e => (.error e, mem)
        | .ok mem' =>
            loadSegs b size n (i + 1) (min mn (p_va b i))
              (max mx (p_va b i + p_memsz b i)) mem'
      else
        loadSegs b size n (i + 1) mn mx mem := by
  rw [loadSegs]

/-- A failing `loadSeg` reports `-E_INVALID_EXE`. -/
theorem loadSeg_error_kind (b : List Nat) (size i : Nat) (mem : Mem) (e : KErr)
    (h : loadSeg b size i mem = .error e) : e = .E_INVALID_EXE := by
  simp only [loadSeg] at h
  split at h
  · exact (Except.error.injEq .. ▸ h).symm
  · split at h
    · exact (Except.error.injEq .. ▸ h).symm
    · simp at h

/-- A failing program-header loop reports `-E_INVALID_EXE`. -/
theorem loadSegs_error_kind (b : List Nat) (size : Nat) :
    ∀ n i mn mx mem e mem',
      loadSegs b size n i mn mx mem = (.error e, mem') → e = .E_INVALID_EXE := by
  intro n
  induction n with
  | zero =>
      intro i mn mx mem e mem' h
      rw [loadSegs_zero] at h
      simp at h
  | succ n ih =>
      intro i mn mx mem e mem' h
      rw [loadSegs_succ] at h
      split at h
      · split at h
        · rename_i e' heq
          simp only [Prod.mk.injEq] at h
          obtain ⟨h1, -⟩ := h
          rw [loadSeg_error_kind b size i mem e' heq] at h1
          exact (Except.error.injEq .. ▸ h1).symm
        · exact ih _ _ _ _ _ _ h
      · exact ih _ _ _ _ _ _ h

/-- A successful program-header loop validated every loadable entry's source
range against the buffer and destination range against `UTOP`. -/
theorem loadSegs_ok_checks (b : List Nat) (size : Nat) :
    ∀ n i mn mx mem mn' mx' mem',
      loadSegs b size n i mn mx mem = (.ok (mn', mx'), mem') →
      ∀ j, i ≤ j → j < i + n → p_type b j = ELF_PROG_LOAD →
        p_offset b j + min (p_filesz b j) (p_memsz b j) ≤ size ∧
        p_va b j + p_memsz b j ≤ UTOP := by
  intro n
  induction n with
  | zero =>
      intro i mn mx mem mn' mx' mem' h j hj1 hj2
      omega
  | succ n ih =>
      intro i mn mx mem mn' mx' mem' h j hj1 hj2 hload
      rw [loadSegs_succ] at h
      by_cases hji : j = i
      · subst hji
        rw [if_pos hload] at h
        split at h
        · simp at h
        · rename_i mem₁ heq
          simp only [loadSeg] at heq
          split at heq
          · simp at heq
          · split at heq
            · simp at heq
            · rename_i h1 h2
              omega
      · have hj1' : i + 1 ≤ j := by omega
        have hj2' : j < (i + 1) + n := by omega
        split at h
        · split at h
          · simp at h
          · exact ih _ _ _ _ _ _ _ h j hj1' hj2' hload
        · exact ih _ _ _ _ _ _ _ h j hj1' hj2' hload

end KernEnv

namespace KernEnv

/-- C5: every failure of `load_icode` reports the single error code
`-E_INVALID_EXE`; any violated header-level check (truncation, magic, class,
endianness, version, type, machine, header sizes, section/program tables or
string table out of bounds, empty or unterminated string table) makes it
fail with the environment and memory completely untouched; a failing
program-header entry or a degenerate/out-of-bound span or entry point makes
it fail with exactly the memory written by the already-validated segments;
and success implies every one of those checks passed. -/
theorem load_icode_reject_spec :
    (∀ resolver env mem b size e env' mem'',
      load_icode resolver env mem b size = (.error e, env', mem'') →
      e = .E_INVALID_EXE) ∧
    (∀ resolver env mem b size, elfHeaderOk b size = false →
      load_icode resolver env mem b size = (.error .E_INVALID_EXE, env, mem)) ∧
    (∀ resolver env mem b size e mem',
      elfHeaderOk b size = true →
      loadSegs b size (e_phnum b) 0 UTOP 0 mem = (.error e, mem') →
      load_icode resolver env mem b size = (.error .E_INVALID_EXE, env, mem')) ∧
    (∀ resolver env mem b size mn mx mem',
      elfHeaderOk b size = true →
      loadSegs b size (e_phnum b) 0 UTOP 0 mem = (.ok (mn, mx), mem') →
      ((mx ≤ mn ∨ mx ≥ UTOP) ∨ (e_entry b ≥ mx ∨ e_entry b < mn)) →
      load_icode resolver env mem b size = (.error .E_INVALID_EXE, env, mem')) ∧
    (∀ resolver env mem b size env' mem'',
      load_icode resolver env mem b size = (.ok (), env', mem'') →
      elfHeaderOk b size = true ∧
      (∃ mn mx mem', loadSegs b size (e_phnum b) 0 UTOP 0 mem = (.ok (mn, mx), mem') ∧
        mn < mx ∧ mx < UTOP ∧ mn ≤ e_entry b ∧ e_entry b < mx) ∧
      (∀ j, j < e_phnum b → p_type b j = ELF_PROG_LOAD →
        p_offset b j + min (p_filesz b j) (p_memsz b j) ≤ size ∧
        p_va b j + p_memsz b j ≤ UTOP)) := by
  refine ⟨?_, ?_, ?_, ?_, ?_⟩
  · intro resolver env mem b size e env' mem'' h
    unfold load_icode at h
    split at h
    · simp only [Prod.mk.injEq] at h
      obtain ⟨h1, -⟩ := h
      exact ((Except.error.injEq .. ▸ h1)).symm
    · split at h
      · rename_i e₁ mem₁ heq
        simp only [Prod.mk.injEq] at h
        obtain ⟨h1, -⟩ := h
        rw [loadSegs_error_kind b size (e_phnum b) 0 UTOP 0 mem e₁ mem₁ heq] at h1
        exact ((Except.error.injEq .. ▸ h1)).symm
      · unfold loadFinish at h
        split at h
        · simp only [Prod.mk.injEq] at h
          obtain ⟨h1, -⟩ := h
          exact ((Except.error.injEq .. ▸ h1)).symm
        · split at h
          · simp only [Prod.mk.injEq] at h
            obtain ⟨h1, -⟩ := h
            exact ((Except.error.injEq .. ▸ h1)).symm
          · split at h
            · simp only [Prod.mk.injEq] at h
              obtain ⟨h1, -⟩ := h
              exact ((Except.error.injEq .. ▸ h1)).symm
            · simp at h
  · intro resolver env mem b size h
    unfold load_icode
    rw [if_pos (by simp [h])]
  · intro resolver env mem b size e mem' h hls
    have he := loadSegs_error_kind b size (e_phnum b) 0 UTOP 0 mem e mem' hls
    subst he
    unfold load_icode
    rw [if_neg (by simp [h]), hls]
  · intro resolver env mem b size mn mx mem' h hls hfail
    unfold load_icode
    rw [if_neg (by simp [h]), hls]
    show loadFinish resolver env mem' b size mn mx = _
    unfold loadFinish
    split_ifs with h1 h2
    · rfl
    · rfl
    · omega
  · intro resolver env mem b size env' mem'' h
    unfold load_icode at h
    split at h
    · simp at h
    · rename_i hh
      split at h
      · simp at h
      · rename_i mn mx mem₁ heq
        unfold loadFinish at h
        split at h
        · simp at h
        · rename_i hspan
          split at h
          · simp at h
          · rename_i hentry
            refine ⟨by simpa using hh, ⟨mn, mx, mem₁, heq, by omega, by omega,
              by omega, by omega⟩, ?_⟩
            intro j hj hload
            exact loadSegs_ok_checks b size (e_phnum b) 0 UTOP 0 mem mn mx mem₁
              heq j (Nat.zero_le j) (by omega) hload

end KernEnv

namespace KernEnv

/-- Witness for C5: the empty buffer fails the header validation, and
`load_icode` rejects it with `-E_INVALID_EXE` leaving environment and
memory untouched. -/
theorem load_icode_reject_spec_w :
    load_icode resolver0 {} memZ [] 0 = (.error .E_INVALID_EXE, {}, memZ) :=
  load_icode_reject_spec.2.1 resolver0 {} memZ [] 0 (by decide)

end KernEnv

namespace KernEnv

/-- Unfolding equation of `bindSyms` for zero remaining symbols. -/
theorem bindSyms_zero (resolver : List Nat → Nat) (b : List Nat)
    (strOff strSize imageStart imageEnd off : Nat) (mem : Mem) :
    bindSyms resolver b strOff strSize imageStart imageEnd 0 off mem =
      (.ok (), mem) := by
  rw [bindSyms]

/-- Unfolding equation of `bindSyms` for one more symbol. -/
theorem bindSyms_succ (resolver : List Nat → Nat) (b : List Nat)
    (strOff strSize imageStart imageEnd n off : Nat) (mem : Mem) :
    bindSyms resolver b strOff strSize imageStart imageEnd (n + 1) off mem =
      match bindSym resolver b strOff strSize imageStart imageEnd off mem with
      | (.error e, mem') => (.error e, mem')
      | (.ok _, mem') =>
          bindSyms resolver b strOff strSize imageStart imageEnd n
            (off + sizeofSym) mem' := by
  rw [bindSyms]

/-- Unfolding equation of `bindSections` for zero remaining sections. -/
theorem bindSections_zero (resolver : List Nat → Nat) (b : List Nat)
    (size strOff strSize imageStart imageEnd i : Nat) (mem : Mem) :
    bindSections resolver b size strOff strSize imageStart imageEnd 0 i mem =
      (.ok (), mem) := by
  rw [bindSections]

/-- Unfolding equation of `bindSections` for one more section. -/
theorem bindSections_succ (resolver : List Nat → Nat) (b : List Nat)
    (size strOff strSize imageStart imageEnd n i : Nat) (mem : Mem) :
    bindSections resolver b size strOff strSize imageStart imageEnd (n + 1) i mem =
      if sh_type b i = ELF_SHT_SYMTAB then
        if sh_offset b i + sh_size b i > size then (.error .E_INVALID_EXE, mem)
        else if sh_entsize b i ≠ sizeofSym then (.error .E_INVALID_EXE, mem)
        else
          match bindSyms resolver b strOff strSize imageStart imageEnd
              (sh_size b i / sizeofSym) (sh_offset b i) mem with
          | (.error e, mem') => (.error e, mem')
          | (.ok _, mem') =>
              bindSections resolver b size strOff strSize imageStart imageEnd
                n (i + 1) mem'
      else
        bindSections resolver b size strOff strSize imageStart imageEnd
          n (i + 1) mem := by
  rw [bindSections]

/-- A resolver that finds nothing leaves one candidate symbol's memory
untouched. -/
theorem bindSym_resolver0_mem (b : List Nat)
    (strOff strSize imageStart imageEnd off : Nat) (mem : Mem) :
    (bindSym (fun _ => 0) b strOff strSize imageStart imageEnd off mem).2 = mem := by
  unfold bindSym
  split_ifs <;> rfl

/-- A resolver that finds nothing leaves a symbol run's memory untouched. -/
theorem bindSyms_resolver0_mem (b : List Nat)
    (strOff strSize imageStart imageEnd : Nat) :
    ∀ n off mem,
      (bindSyms (fun _ => 0) b strOff strSize imageStart imageEnd n off mem).2 =
        mem := by
  intro n
  induction n with
  | zero =>
      intro off mem
      rw [bindSyms_zero]
  | succ n ih =>
      intro off mem
      rw [bindSyms_succ]
      rcases hb : bindSym (fun _ => 0) b strOff strSize imageStart imageEnd off mem
        with ⟨res, mem₁⟩
      have hm : mem₁ = mem := by
        have := bindSym_resolver0_mem b strOff strSize imageStart imageEnd off mem
        rw [hb] at this
        exact this
      cases res with
      | error e => simpa using hm
      | ok u =>
          simpa using (hm ▸ ih (off + sizeofSym) mem₁ : _)

/-- A resolver that finds nothing leaves the section run's memory untouched. -/
theorem bindSections_resolver0_mem (b : List Nat)
    (size strOff strSize imageStart imageEnd : Nat) :
    ∀ n i mem,
      (bindSections (fun _ => 0) b size strOff strSize imageStart imageEnd
        n i mem).2 = mem := by
  intro n
  induction n with
  | zero =>
      intro i mem
      rw [bindSections_zero]
  | succ n ih =>
      intro i mem
      rw [bindSections_succ]
      split_ifs with h1 h2 h3
      · rfl
      · rfl
      · rcases hb : bindSyms (fun _ => 0) b strOff strSize imageStart imageEnd
            (sh_size b i / sizeofSym) (sh_offset b i) mem with ⟨res, mem₁⟩
        have hm : mem₁ = mem := by
          have := bindSyms_resolver0_mem b strOff strSize imageStart imageEnd
            (sh_size b i / sizeofSym) (sh_offset b i) mem
          rw [hb] at this
          exact this
        cases res with
        | error e => simpa using hm
        | ok u => simpa using (hm ▸ ih (i + 1) mem₁ : _)
      · exact ih (i + 1) mem

end KernEnv

namespace KernEnv

/-- Byte `dst + k` (`k < 8`) after `write8` holds byte `k` of the value. -/
theorem write8_in (m : Mem) (dst v k : Nat) (hk : k < 8) :
    write8 m dst v (dst + k) = v / 2 ^ (8 * k) % 256 := by
  unfold write8
  rw [if_pos ⟨Nat.le_add_right dst k, by omega⟩, Nat.add_sub_cancel_left]

/-- Bytes outside `[dst, dst + 8)` are untouched by `write8`. -/
theorem write8_out (m : Mem) (dst v a : Nat) (ha : a < dst ∨ dst + 8 ≤ a) :
    write8 m dst v a = m a := by
  unfold write8
  rw [if_neg (by omega)]

/-- C6: the symbol binder considers only GLOBAL OBJECT DEFAULT pointer-sized
symbols (anything else is skipped leaving memory untouched); a considered,
bounds-valid symbol whose name the resolver does not know is skipped without
error and with memory untouched, while a resolved one has exactly the eight
bytes at its value overwritten with the resolved address; when no section is
the `".strtab"` string table, binding succeeds as a no-op; and with a
resolver that knows no symbols, `bind_functions` never writes memory at
all. -/
theorem bind_functions_spec :
    (∀ resolver b size s e mem,
      sh_offset b (e_shstrndx b) + sh_size b (e_shstrndx b) ≤ size →
      findStrtab b (sh_offset b (e_shstrndx b)) (sh_size b (e_shstrndx b))
        (e_shnum b) 0 = .ok none →
      bind_functions resolver b size s e mem = (.ok (), mem)) ∧
    (∀ resolver b strOff strSize s e off mem,
      ¬(ELF64_ST_BIND (st_info b off) = STB_GLOBAL ∧
        ELF64_ST_TYPE (st_info b off) = STT_OBJECT ∧
        st_other b off = STV_DEFAULT ∧ st_size b off = 8) →
      bindSym resolver b strOff strSize s e off mem = (.ok (), mem)) ∧
    (∀ resolver b strOff strSize s e off mem,
      (ELF64_ST_BIND (st_info b off) = STB_GLOBAL ∧
        ELF64_ST_TYPE (st_info b off) = STT_OBJECT ∧
        st_other b off = STV_DEFAULT ∧ st_size b off = 8) →
      st_name b off ≤ strSize →
      s ≤ st_value b off → st_value b off ≤ e →
      (resolver (cstr b (strOff + st_name b off)) = 0 →
        bindSym resolver b strOff strSize s e off mem = (.ok (), mem)) ∧
      (resolver (cstr b (strOff + st_name b off)) ≠ 0 →
        ∃ mem', bindSym resolver b strOff strSize s e off mem = (.ok (), mem') ∧
          (∀ k, k < 8 → mem' (st_value b off + k) =
            resolver (cstr b (strOff + st_name b off)) / 2 ^ (8 * k) % 256) ∧
          (∀ a, a < st_value b off ∨ st_value b off + 8 ≤ a →
            mem' a = mem a))) ∧
    (∀ b size s e mem,
      (bind_functions (fun _ => 0) b size s e mem).2 = mem) := by
  refine ⟨?_, ?_, ?_, ?_⟩
  · intro resolver b size s e mem hbound hfind
    unfold bind_functions
    rw [if_neg (by omega), hfind]
  · intro resolver b strOff strSize s e off mem hfilter
    unfold bindSym
    rw [if_neg hfilter]
  · intro resolver b strOff strSize s e off mem hfilter hname hs he
    constructor
    · intro h0
      unfold bindSym
      rw [if_pos hfilter, if_neg (by omega), if_neg (by omega)]
      show (if resolver (cstr b (strOff + st_name b off)) ≠ 0 then
          ((.ok (), write8 mem (st_value b off)
            (resolver (cstr b (strOff + st_name b off)))) :
            Except KErr Unit × Mem)
        else (.ok (), mem)) = (.ok (), mem)
      rw [if_neg (by simp [h0])]
    · intro hne
      refine ⟨write8 mem (st_value b off)
        (resolver (cstr b (strOff + st_name b off))), ?_, ?_, ?_⟩
      · unfold bindSym
        rw [if_pos hfilter, if_neg (by omega), if_neg (by omega)]
        show (if resolver (cstr b (strOff + st_name b off)) ≠ 0 then
            ((.ok (), write8 mem (st_value b off)
              (resolver (cstr b (strOff + st_name b off)))) :
              Except KErr Unit × Mem)
          else (.ok (), mem)) = _
        rw [if_pos hne]
      · intro k hk
        exact write8_in mem (st_value b off)
          (resolver (cstr b (strOff + st_name b off))) k hk
      · intro a ha
        exact write8_out mem (st_value b off)
          (resolver (cstr b (strOff + st_name b off))) a ha
  · intro b size s e mem
    unfold bind_functions
    split_ifs with h1
    · rfl
    · rcases hf : findStrtab b (sh_offset b (e_shstrndx b))
          (sh_size b (e_shstrndx b)) (e_shnum b) 0 with e' | o
      · rfl
      · rcases o with - | t
        · rfl
        · show (bindWithStrtab (fun _ => 0) b size s e t mem).2 = mem
          unfold bindWithStrtab
          split_ifs
          · rfl
          · rfl
          · rfl
          · exact bindSections_resolver0_mem b size (sh_offset b t) (sh_size b t)
              s e (e_shnum b) 0 mem

end KernEnv

namespace KernEnv

/-- Witness for C6: binding `binELF` (which has no `".strtab"`) is a
successful no-op, and binding the resolvable symbol of `binBind` (value
0x201000, inside the span `[0x200000, 0x202000]`) overwrites exactly its
eight bytes — the low byte of 0xABCDEF lands at 0x201000 and the byte below
the slot stays untouched. -/
theorem bind_functions_spec_w :
    bind_functions resolver0 binELF 256 0x100000 0x101000 memZ = (.ok (), memZ) ∧
    ∃ mem', bindSym resolverF binBind 272 16 0x200000 0x202000 288 memZ =
        (.ok (), mem') ∧
      mem' 0x201000 = 0xEF ∧ mem' 0x200FFF = 85 := by
  constructor
  · exact bind_functions_spec.1 resolver0 binELF 256 0x100000 0x101000 memZ
      (by decide) rfl
  · obtain ⟨-, hresolved⟩ := (bind_functions_spec.2.2.1 resolverF binBind 272 16
      0x200000 0x202000 288 memZ (by decide) (by decide) (by decide) (by decide))
    obtain ⟨mem', hb, hin, hout⟩ := hresolved (by decide)
    refine ⟨mem', hb, ?_, ?_⟩
    · have h := hin 0 (by decide)
      rw [show st_value binBind 288 + 0 = 0x201000 from by decide] at h
      rw [h]
      decide
    · have h := hout 0x200FFF (by decide)
      rw [h]
      rfl

end KernEnv

namespace KernEnv

/-- C10: the binder's bounds check on a candidate symbol's value is
inclusive at both ends — a qualifying, name-valid symbol is rejected exactly
when its value is strictly below the span start or strictly above the span
end, so a resolvable symbol whose value equals the span end passes
validation and its eight-byte write starts at the very end address and
extends past it (bytes `e .. e+7` take the address bytes; only addresses
below `e` are guaranteed untouched). -/
theorem bindSym_end_inclusive_spec (resolver : List Nat → Nat) (b : List Nat)
    (strOff strSize s e off : Nat) (mem : Mem)
    (hfilter : ELF64_ST_BIND (st_info b off) = STB_GLOBAL ∧
      ELF64_ST_TYPE (st_info b off) = STT_OBJECT ∧
      st_other b off = STV_DEFAULT ∧ st_size b off = 8)
    (hname : st_name b off ≤ strSize) :
    (st_value b off < s ∨ st_value b off > e →
      bindSym resolver b strOff strSize s e off mem =
        (.error .E_INVALID_EXE, mem)) ∧
    (st_value b off = e → s ≤ e →
      resolver (cstr b (strOff + st_name b off)) ≠ 0 →
      ∃ mem', bindSym resolver b strOff strSize s e off mem = (.ok (), mem') ∧
        (∀ k, k < 8 → mem' (e + k) =
          resolver (cstr b (strOff + st_name b off)) / 2 ^ (8 * k) % 256) ∧
        (∀ a, a < e → mem' a = mem a)) := by
  constructor
  · intro hout
    unfold bindSym
    rw [if_pos hfilter, if_neg (by omega), if_pos hout]
  · intro hval hse hne
    refine ⟨write8 mem (st_value b off)
      (resolver (cstr b (strOff + st_name b off))), ?_, ?_, ?_⟩
    · unfold bindSym
      rw [if_pos hfilter, if_neg (by omega), if_neg (by omega)]
      show (if resolver (cstr b (strOff + st_name b off)) ≠ 0 then
          ((.ok (), write8 mem (st_value b off)
            (resolver (cstr b (strOff + st_name b off)))) :
            Except KErr Unit × Mem)
        else (.ok (), mem)) = _
      rw [if_pos hne]
    · intro k hk
      rw [← hval]
      exact write8_in mem (st_value b off)
        (resolver (cstr b (strOff + st_name b off))) k hk
    · intro a ha
      exact write8_out mem (st_value b off)
        (resolver (cstr b (strOff + st_name b off))) a (by omega)

/-- Witness for C10 on `binBind`: with loaded span `[0x200000, 0x201000]`
its symbol's value equals the span end 0x201000 exactly; binding succeeds
and writes through 0x201007 (byte 7 of the resolved address, 0, replaces the
85 that was there), while with span end 0x200FFF the same symbol is
rejected. -/
theorem bindSym_end_inclusive_spec_w :
    (∃ mem', bindSym resolverF binBind 272 16 0x200000 0x201000 288 memZ =
        (.ok (), mem') ∧ mem' 0x201007 = 0 ∧ mem' 0x201000 = 0xEF) ∧
    bindSym resolverF binBind 272 16 0x200000 0x200FFF 288 memZ =
      (.error .E_INVALID_EXE, memZ) := by
  constructor
  · obtain ⟨-, hend⟩ := bindSym_end_inclusive_spec resolverF binBind 272 16
      0x200000 0x201000 288 memZ (by decide) (by decide)
    obtain ⟨mem', hb, hin, -⟩ := hend (by decide) (by decide) (by decide)
    refine ⟨mem', hb, ?_, ?_⟩
    · have h := hin 7 (by decide)
      rw [h]
      decide
    · have h := hin 0 (by decide)
      rw [h]
      decide
  · obtain ⟨hrej, -⟩ := bindSym_end_inclusive_spec resolverF binBind 272 16
      0x200000 0x200FFF 288 memZ (by decide) (by decide)
    exact hrej (by decide)

end KernEnv
